import Mathlib

/-!
# Backend stream handlers of the IPU4 para-virtualised camera device

A shallow embedding of `drivers/media/pci/intel/virtio/intel-ipu4-virtio-be-stream.c`
(with the request record and the status codes of `intel-ipu4-virtio-common.h`).

* The two file-scope globals `hash_initialised` and `STREAM_NODE_HASH` form the
  `Registry`; every handler takes the registry and returns the new one.
* Everything the handlers obtain from outside the file (the native stream device,
  the guest-memory bridge, the allocator, the wait queue) is read from an `Env`;
  every call the handler issues to them is appended, in program order, to the
  `calls` of the `Outcome`.
* A handler that dereferences a pointer it did not check (or writes past
  `node_name`) has no outcome: it returns `none`.
* The spin locks are not modelled: one handler runs at a time.
-/

namespace Ipu4Stream

/-! ## Constants -/

/-- The macro `MAX_SIZE` (`#define MAX_SIZE 6 // max 2^6`). -/
abbrev MAX_SIZE : Nat := 6

/-- The macro `POLL_WAIT` (`#define POLL_WAIT 20000 //20s`). -/
def POLL_WAIT : Nat := 20000

/-- Number of buckets declared by `DECLARE_HASHTABLE(STREAM_NODE_HASH, MAX_SIZE)`. -/
abbrev HASH_SIZE : Nat := 2 ^ MAX_SIZE

/-- Status `IPU4_REQ_ERROR = -1` of `enum intel_ipu4_virtio_req_feedback`. -/
def IPU4_REQ_ERROR : Int := -1

/-- Status `IPU4_REQ_PROCESSED` (0) of `enum intel_ipu4_virtio_req_feedback`. -/
def IPU4_REQ_PROCESSED : Int := 0

/-- Status `IPU4_REQ_PENDING` (1) of `enum intel_ipu4_virtio_req_feedback`. -/
def IPU4_REQ_PENDING : Int := 1

/-- Status `IPU4_REQ_NOT_RESPONDED` (2) of `enum intel_ipu4_virtio_req_feedback`. -/
def IPU4_REQ_NOT_RESPONDED : Int := 2

/-- Size of `char node_name[25]` in `process_device_open`. -/
def NODE_NAME_SIZE : Nat := 25

/-- Storing an `int` into an `unsigned int` field (`req->stat = status`). -/
def to_u32 (x : Int) : Nat := (x % 2 ^ 32).toNat

/-! ## Data -/

/-- The part of `struct ici_stream_device` the handlers touch: `virt_dev_id`. -/
structure ici_stream_device where
  virt_dev_id : Nat
  deriving DecidableEq, Repr

/-- A `struct file *`: the address of the open file and what its `private_data`
points to (`none` for `NULL`). -/
structure file where
  addr : Nat
  private_data : Option ici_stream_device
  deriving DecidableEq, Repr

/-- The `struct stream_node`, without the list linkage: the node stores the owner and
the file, and no key. -/
structure stream_node where
  client_id : Int
  f : file
  deriving DecidableEq, Repr

/-- The `struct ipu4_virtio_req`, the fields that carry data. -/
structure ipu4_virtio_req where
  req_id : Nat
  stat : Nat
  cmd : Nat
  func_ret : Nat
  op : Nat → Nat
  payload : Nat

/-- The two fields of `struct ipu4_virtio_req_info` the handlers read. -/
structure ipu4_virtio_req_info where
  request : ipu4_virtio_req
  domid : Int

/-- The buckets of `STREAM_NODE_HASH`, each an `hlist` from head to tail. -/
abbrev Table : Type := Fin HASH_SIZE → List stream_node

/-- The file-scope state: `hash_initialised` and `STREAM_NODE_HASH`. -/
structure Registry where
  hash_initialised : Bool
  STREAM_NODE_HASH : Table

/-- State of the statics when the module is loaded: zero-initialised. -/
def Registry.boot : Registry := { hash_initialised := false, STREAM_NODE_HASH := fun _ => [] }

/-- One call to an external collaborator, as issued by a handler. A guest-memory
mapping records what `map_guest_phys` returned (`none` for `NULL`). -/
inductive Call where
  | filp_open (name : String)
  | filp_close (f : file)
  | map_guest_phys (domid : Int) (gpa : Nat) (size : Nat) (ret : Option Nat)
  | unmap_guest_phys (domid : Int) (gpa : Nat)
  | ici_set_format (f : file)
  | ici_put_buf (f : file)
  | ici_get_buf_virt (f : file) (data_pages : List (Option Nat))
  | ici_stream_on (f : file)
  | ici_stream_off (f : file)
  | wait_event_interruptible_timeout (f : file) (timeout : Nat)
  | wake_up_interruptible (f : file)
  deriving DecidableEq, Repr

/-- Everything the handlers read from outside the file. Headers that are not
among the sources contribute their constants as fields. -/
structure Env where
  /-- Constant `POLLIN` of `linux/poll.h` -/
  POLLIN : Nat
  /-- Constant `ERESTARTSYS` of `linux/errno.h` -/
  ERESTARTSYS : Int
  /-- Constant `PAGE_SIZE` -/
  PAGE_SIZE : Nat
  /-- Size `sizeof(struct ici_stream_format)` -/
  sizeof_ici_stream_format : Nat
  /-- Size `sizeof(struct ici_frame_info)` -/
  sizeof_ici_frame_info : Nat
  /-- Size `sizeof(struct ici_frame_buf_wrapper)` -/
  sizeof_ici_frame_buf_wrapper : Nat
  /-- Whether `kzalloc(sizeof(struct stream_node), GFP_KERNEL)` returned memory -/
  kzalloc : Bool
  /-- Whether `kcalloc(n, sizeof(struct page *), GFP_KERNEL)` returned memory -/
  kcalloc : Nat → Bool
  /-- Result of `filp_open(name, O_RDWR | O_NONBLOCK, 0)`; `none` is an error pointer -/
  filp_open : String → Option file
  /-- Result of `map_guest_phys(domid, gpa, size)`; `none` is `NULL` -/
  map_guest_phys : Int → Nat → Nat → Option Nat
  /-- Field `shared_buf->kframe_info.planes[0].npages` read through the mapping -/
  npages : Nat → Nat
  /-- Field `shared_buf->kframe_info.planes[0].page_table_ref` read through the mapping -/
  page_table_ref : Nat → Nat
  /-- Entry `page_table[i]` read through the mapping of the page table -/
  page_table : Nat → Nat → Nat
  /-- Result of `virt_to_page(pageaddr)` -/
  virt_to_page : Nat → Nat
  /-- Return value of `ipu_ioctl_ops->ici_set_format(f, strm_dev, host_virt)` -/
  ici_set_format : file → Nat → Int
  /-- Return value of `ipu_ioctl_ops->ici_put_buf(f, strm_dev, host_virt)` -/
  ici_put_buf : file → Nat → Int
  /-- Return value of `ipu_ioctl_ops->ici_get_buf_virt(f, strm_dev, shared_buf, data_pages)` -/
  ici_get_buf_virt : file → Nat → List (Option Nat) → Int
  /-- Return value of `ipu_ioctl_ops->ici_stream_on(f, strm_dev)` -/
  ici_stream_on : file → Int
  /-- Return value of `ipu_ioctl_ops->ici_stream_off(f, strm_dev)` -/
  ici_stream_off : file → Int
  /-- Value of `list_empty(&as->buf_list.putbuf_list)` at the first test of `process_poll` -/
  putbuf_list_empty : file → Bool
  /-- Value of `wait_event_interruptible_timeout(as->buf_list.wait, ..., POLL_WAIT)` -/
  wait_result : file → Int
  /-- Field `as->ip.streaming` read after the wait returned -/
  streaming : file → Bool

/-- What a handler leaves behind: the return value, the request record, the
registry, and the calls it made, in order. -/
structure Outcome where
  status : Int
  req : ipu4_virtio_req
  reg : Registry
  calls : List Call

/-! ## The hash table macros

`linux/hashtable.h` is not among the sources. The macros are given their list
meaning; the bucket index `hash_min(key, HASH_BITS(STREAM_NODE_HASH))` is the
parameter `hash_min` of every handler. -/

/-- Modelled from the spec: `hash_init` of `linux/hashtable.h`, a header that is not
among the sources (the registry is the spec's hash table): every bucket becomes empty. -/
def hash_init : Table := fun _ => []

/-- Modelled from the spec: `hash_add(STREAM_NODE_HASH, &sn->node, key)` of
`linux/hashtable.h`, not among the sources: the node becomes the head of the bucket of
`key`. -/
def hash_add (hash_min : Nat → Fin HASH_SIZE) (t : Table) (sn : stream_node) (key : Nat) : Table :=
  Function.update t (hash_min key) (sn :: t (hash_min key))

/-- Modelled from the spec: `hash_for_each_possible(STREAM_NODE_HASH, sn, node, key)` of
`linux/hashtable.h`, not among the sources: the nodes the loop visits, in order. They
are the nodes of the bucket of `key`; the macro itself compares no key. -/
def hash_for_each_possible (hash_min : Nat → Fin HASH_SIZE) (t : Table) (key : Nat) :
    List stream_node :=
  t (hash_min key)

/-- Modelled from the spec: `hash_empty(STREAM_NODE_HASH)` of `linux/hashtable.h`, not
among the sources: no bucket holds a node. -/
def hash_empty (t : Table) : Bool :=
  (List.finRange HASH_SIZE).all (fun b => (t b).isEmpty)

/-- The generic `hash_32(val, MAX_SIZE)` of `linux/hash.h` (a header that is not among
the sources), which `hash_min` selects for a 32-bit key: the product with
`GOLDEN_RATIO_32`, truncated to 32 bits, shifted right by `32 - MAX_SIZE`. It is only
one instance of the parameter `hash_min`, used to evaluate the handlers at concrete
requests; every general statement below holds for all bucket functions. -/
def hash_32 (val : Nat) : Fin HASH_SIZE :=
  ⟨(val % 2 ^ 32 * 0x61C88647) % 2 ^ 32 / 2 ^ (32 - MAX_SIZE),
    Nat.div_lt_of_lt_mul (Nat.mod_lt _ (by norm_num))⟩

/-! ## Device name -/

/-- Conversion `%d` applied to an `unsigned int` argument: the 32 bits are printed as a
signed decimal. -/
def fmt_d (x : Nat) : String :=
  let u := x % 2 ^ 32
  if u < 2 ^ 31 then Nat.repr u else "-" ++ Nat.repr (2 ^ 32 - u)

/-- The characters `sprintf(node_name, "/dev/intel_stream%d", req->op[0])` writes
before the terminating NUL. -/
def node_name (op0 : Nat) : String := "/dev/intel_stream" ++ fmt_d op0

/-! ## Handlers -/

/-- Body of the loops of `process_device_close` and `cleanup_stream` over one bucket
(`hash_for_each_possible_safe` / the inner list of `hash_for_each_safe`): every node
visited is closed with `filp_close(sn->f, 0)` and unlinked with `hash_del`. Returns the
calls issued and the nodes still linked in the bucket afterwards. -/
def close_bucket : List stream_node → List Call × List stream_node
  | [] => ([], [])
  | sn :: rest =>
    let r := close_bucket rest
    (Call.filp_close sn.f :: r.1, r.2)

/-- The loop `hash_for_each_safe(STREAM_NODE_HASH, bkt, tmp, sn, node)` of
`cleanup_stream`, over the bucket indices `bkts` in order. -/
def cleanup_loop : List (Fin HASH_SIZE) → Table × List Call → Table × List Call
  | [], acc => acc
  | bkt :: rest, (t, calls) =>
    let r := close_bucket (t bkt)
    cleanup_loop rest (Function.update t bkt r.2, calls ++ r.1)

/-- The function `cleanup_stream`. -/
def cleanup_stream (reg : Registry) : Registry × List Call :=
  if !hash_empty reg.STREAM_NODE_HASH then
    let r := cleanup_loop (List.finRange HASH_SIZE) (reg.STREAM_NODE_HASH, [])
    ({ reg with STREAM_NODE_HASH := r.1 }, r.2)
  else
    (reg, [])

/-- The function `process_device_open`. -/
def process_device_open (hash_min : Nat → Fin HASH_SIZE) (env : Env) (reg : Registry)
    (req_info : ipu4_virtio_req_info) : Option Outcome :=
  let req := req_info.request
  let domid := req_info.domid
  -- if (!hash_initialised) { hash_init(STREAM_NODE_HASH); hash_initialised = true; ... }
  let reg1 : Registry :=
    if !reg.hash_initialised then
      { hash_initialised := true, STREAM_NODE_HASH := hash_init }
    else reg
  -- hash_for_each_possible(...) { if (sn != NULL) { ... return IPU4_REQ_ERROR; } }
  match hash_for_each_possible hash_min reg1.STREAM_NODE_HASH (req.op 0) with
  | sn :: _ =>
    if sn.client_id ≠ domid then
      -- "already opened by other guest!"
      some { status := IPU4_REQ_ERROR, req := req, reg := reg1, calls := [] }
    else
      -- "already opened by client"
      some { status := IPU4_REQ_ERROR, req := req, reg := reg1, calls := [] }
  | [] =>
    -- sprintf(node_name, ...): the name and its NUL must fit node_name[25]
    if NODE_NAME_SIZE < (node_name (req.op 0)).length + 1 then none
    -- sn = kzalloc(...); sn->f = ...: sn is written without a NULL check
    else if !env.kzalloc then none
    else
      match env.filp_open (node_name (req.op 0)) with
      -- sn->f->private_data is read without an IS_ERR check
      | none => none
      | some f =>
        match f.private_data with
        | none =>
          -- "Native IPU stream device not found": the node is not linked
          some { status := IPU4_REQ_ERROR, req := req, reg := reg1,
                 calls := [Call.filp_open (node_name (req.op 0))] }
        | some strm_dev =>
          -- strm_dev->virt_dev_id = req->op[0]; sn->client_id = domid; hash_add(...)
          let f1 : file := { f with private_data := some { strm_dev with virt_dev_id := req.op 0 } }
          let sn : stream_node := { client_id := domid, f := f1 }
          some { status := IPU4_REQ_PROCESSED, req := req,
                 reg := { reg1 with
                   STREAM_NODE_HASH := hash_add hash_min reg1.STREAM_NODE_HASH sn (req.op 0) },
                 calls := [Call.filp_open (node_name (req.op 0))] }

/-- The function `process_device_close`. -/
def process_device_close (hash_min : Nat → Fin HASH_SIZE) (reg : Registry)
    (req_info : ipu4_virtio_req_info) : Outcome :=
  let req := req_info.request
  if !reg.hash_initialised then
    -- no node has been opened, do nothing
    { status := IPU4_REQ_PROCESSED, req := req, reg := reg, calls := [] }
  else
    let r := close_bucket (hash_for_each_possible hash_min reg.STREAM_NODE_HASH (req.op 0))
    { status := IPU4_REQ_PROCESSED, req := req,
      reg := { reg with
        STREAM_NODE_HASH := Function.update reg.STREAM_NODE_HASH (hash_min (req.op 0)) r.2 },
      calls := r.1 }

/-- The function `process_set_format`. -/
def process_set_format (hash_min : Nat → Fin HASH_SIZE) (env : Env) (reg : Registry)
    (req_info : ipu4_virtio_req_info) : Outcome :=
  let req := req_info.request
  let domid := req_info.domid
  if !reg.hash_initialised then
    { status := IPU4_REQ_ERROR, req := req, reg := reg, calls := [] }
  else
    match hash_for_each_possible hash_min reg.STREAM_NODE_HASH (req.op 0) with
    | [] => { status := IPU4_REQ_ERROR, req := req, reg := reg, calls := [] }
    | sn :: _ =>
      match sn.f.private_data with
      | none => { status := IPU4_REQ_ERROR, req := req, reg := reg, calls := [] }
      | some _ =>
        let ret := env.map_guest_phys domid req.payload env.sizeof_ici_stream_format
        let cmap := Call.map_guest_phys domid req.payload env.sizeof_ici_stream_format ret
        match ret with
        | none => { status := IPU4_REQ_ERROR, req := req, reg := reg, calls := [cmap] }
        | some host_virt =>
          let err := env.ici_set_format sn.f host_virt
          let calls := [cmap, Call.ici_set_format sn.f, Call.unmap_guest_phys domid req.payload]
          if err ≠ 0 then { status := IPU4_REQ_ERROR, req := req, reg := reg, calls := calls }
          else { status := IPU4_REQ_PROCESSED, req := req, reg := reg, calls := calls }

/-- The function `process_poll`. -/
def process_poll (hash_min : Nat → Fin HASH_SIZE) (env : Env) (reg : Registry)
    (req_info : ipu4_virtio_req_info) : Option Outcome :=
  let req := req_info.request
  if !reg.hash_initialised then
    some { status := IPU4_REQ_ERROR, req := req, reg := reg, calls := [] }
  else
    match hash_for_each_possible hash_min reg.STREAM_NODE_HASH (req.op 0) with
    | [] => some { status := IPU4_REQ_ERROR, req := req, reg := reg, calls := [] }
    | sn :: _ =>
      -- as = dev_to_stream(sn->f->private_data): used without a NULL check
      match sn.f.private_data with
      | none => none
      | some _ =>
        let empty := env.putbuf_list_empty sn.f
        if !empty then
          some { status := IPU4_REQ_PROCESSED, req := { req with func_ret := 1 }, reg := reg,
                 calls := [] }
        else
          let time_remain := env.wait_result sn.f
          let calls := [Call.wait_event_interruptible_timeout sn.f POLL_WAIT]
          if time_remain = -env.ERESTARTSYS ∨ time_remain = 0 ∨ env.streaming sn.f = false then
            some { status := IPU4_REQ_ERROR, req := { req with func_ret := 0 }, reg := reg,
                   calls := calls }
          else
            some { status := IPU4_REQ_PROCESSED, req := { req with func_ret := env.POLLIN },
                   reg := reg, calls := calls }

/-- The function `process_put_buf`. -/
def process_put_buf (hash_min : Nat → Fin HASH_SIZE) (env : Env) (reg : Registry)
    (req_info : ipu4_virtio_req_info) : Outcome :=
  let req := req_info.request
  let domid := req_info.domid
  if !reg.hash_initialised then
    { status := IPU4_REQ_ERROR, req := req, reg := reg, calls := [] }
  else
    match hash_for_each_possible hash_min reg.STREAM_NODE_HASH (req.op 0) with
    | [] => { status := IPU4_REQ_ERROR, req := req, reg := reg, calls := [] }
    | sn :: _ =>
      match sn.f.private_data with
      | none => { status := IPU4_REQ_ERROR, req := req, reg := reg, calls := [] }
      | some _ =>
        let ret := env.map_guest_phys domid req.payload env.sizeof_ici_frame_info
        let cmap := Call.map_guest_phys domid req.payload env.sizeof_ici_frame_info ret
        match ret with
        | none => { status := IPU4_REQ_ERROR, req := req, reg := reg, calls := [cmap] }
        | some host_virt =>
          let err := env.ici_put_buf sn.f host_virt
          let calls := [cmap, Call.ici_put_buf sn.f, Call.unmap_guest_phys domid req.payload]
          if err ≠ 0 then { status := IPU4_REQ_ERROR, req := req, reg := reg, calls := calls }
          else { status := IPU4_REQ_PROCESSED, req := req, reg := reg, calls := calls }

/-- The function `process_stream_on`. -/
def process_stream_on (hash_min : Nat → Fin HASH_SIZE) (env : Env) (reg : Registry)
    (req_info : ipu4_virtio_req_info) : Outcome :=
  let req := req_info.request
  if !reg.hash_initialised then
    { status := IPU4_REQ_ERROR, req := req, reg := reg, calls := [] }
  else
    match hash_for_each_possible hash_min reg.STREAM_NODE_HASH (req.op 0) with
    | [] => { status := IPU4_REQ_ERROR, req := req, reg := reg, calls := [] }
    | sn :: _ =>
      match sn.f.private_data with
      | none => { status := IPU4_REQ_ERROR, req := req, reg := reg, calls := [] }
      | some _ =>
        let err := env.ici_stream_on sn.f
        if err ≠ 0 then
          { status := IPU4_REQ_ERROR, req := req, reg := reg, calls := [Call.ici_stream_on sn.f] }
        else
          { status := IPU4_REQ_PROCESSED, req := req, reg := reg,
            calls := [Call.ici_stream_on sn.f] }

/-- The function `process_stream_off`. -/
def process_stream_off (hash_min : Nat → Fin HASH_SIZE) (env : Env) (reg : Registry)
    (req_info : ipu4_virtio_req_info) : Outcome :=
  let req := req_info.request
  if !reg.hash_initialised then
    { status := IPU4_REQ_ERROR, req := req, reg := reg, calls := [] }
  else
    match hash_for_each_possible hash_min reg.STREAM_NODE_HASH (req.op 0) with
    | [] => { status := IPU4_REQ_ERROR, req := req, reg := reg, calls := [] }
    | sn :: _ =>
      match sn.f.private_data with
      | none => { status := IPU4_REQ_ERROR, req := req, reg := reg, calls := [] }
      | some _ =>
        let err := env.ici_stream_off sn.f
        if err ≠ 0 then
          { status := IPU4_REQ_ERROR, req := req, reg := reg,
            calls := [Call.ici_stream_off sn.f] }
        else
          { status := IPU4_REQ_PROCESSED, req := req, reg := reg,
            calls := [Call.ici_stream_off sn.f, Call.wake_up_interruptible sn.f] }

/-- The loop `for (i = 0; i < npages; i++)` of `process_get_buf` that maps the pages,
run over the page-table entries still to visit. A `NULL` mapping ends the loop
(`break`). Returns the pages stored in `data_pages[0..k-1]` and the calls issued. -/
def map_pages (env : Env) (domid : Int) : List Nat → List Nat × List Call
  | [] => ([], [])
  | gpa :: rest =>
    match env.map_guest_phys domid gpa env.PAGE_SIZE with
    -- req->stat = IPU4_REQ_ERROR; break;
    | none => ([], [Call.map_guest_phys domid gpa env.PAGE_SIZE none])
    | some pageaddr =>
      let r := map_pages env domid rest
      (env.virt_to_page pageaddr :: r.1,
        Call.map_guest_phys domid gpa env.PAGE_SIZE (some pageaddr) :: r.2)

/-- The labels `exit:` of `process_get_buf`: `req->stat = status; return status;`. -/
def get_buf_exit (req : ipu4_virtio_req) (reg : Registry) (status : Int) (calls : List Call) :
    Outcome :=
  { status := status, req := { req with stat := to_u32 status }, reg := reg, calls := calls }

/-- The function `process_get_buf`. -/
def process_get_buf (hash_min : Nat → Fin HASH_SIZE) (env : Env) (reg : Registry)
    (req_info : ipu4_virtio_req_info) : Outcome :=
  let req := req_info.request
  let domid := req_info.domid
  if !reg.hash_initialised then
    { status := IPU4_REQ_ERROR, req := req, reg := reg, calls := [] }
  else
    match hash_for_each_possible hash_min reg.STREAM_NODE_HASH (req.op 0) with
    | [] => { status := IPU4_REQ_ERROR, req := req, reg := reg, calls := [] }
    | sn :: _ =>
      let ret := env.map_guest_phys domid req.payload env.sizeof_ici_frame_buf_wrapper
      let c_payload := Call.map_guest_phys domid req.payload env.sizeof_ici_frame_buf_wrapper ret
      let u_payload := Call.unmap_guest_phys domid req.payload
      match ret with
      -- status = IPU4_REQ_ERROR; goto exit;
      | none => get_buf_exit req reg IPU4_REQ_ERROR [c_payload]
      | some shared_buf =>
        let npages := env.npages shared_buf
        let page_table_ref := env.page_table_ref shared_buf
        if !env.kcalloc npages then
          -- status = IPU4_REQ_ERROR; goto exit_payload;
          get_buf_exit req reg IPU4_REQ_ERROR [c_payload, u_payload]
        else
          let pt := env.map_guest_phys domid page_table_ref (npages * 8)
          let c_pt := Call.map_guest_phys domid page_table_ref (npages * 8) pt
          match pt with
          -- req->stat = IPU4_REQ_ERROR; status = IPU4_REQ_ERROR; goto exit_payload;
          | none => get_buf_exit req reg IPU4_REQ_ERROR [c_payload, c_pt, u_payload]
          | some page_table =>
            -- page_table[0], ..., page_table[npages - 1]
            let entries := (List.range npages).map (env.page_table page_table)
            let r := map_pages env domid entries
            -- the kcalloc-ed array: k slots filled, the others still NULL
            let data_pages : List (Option Nat) :=
              r.1.map some ++ List.replicate (npages - r.1.length) none
            -- exit_page_table: unmap every page_table[i], i < npages; then the page
            -- table; exit_payload: unmap the payload
            let unwind : List Call :=
              entries.map (Call.unmap_guest_phys domid) ++
                [Call.unmap_guest_phys domid page_table_ref, u_payload]
            match sn.f.private_data with
            | none =>
              -- status = IPU4_REQ_ERROR; goto exit_page_table;
              get_buf_exit req reg IPU4_REQ_ERROR ([c_payload, c_pt] ++ r.2 ++ unwind)
            | some _ =>
              let err := env.ici_get_buf_virt sn.f shared_buf data_pages
              let status := if err ≠ 0 then IPU4_REQ_ERROR else IPU4_REQ_PROCESSED
              get_buf_exit req reg status
                ([c_payload, c_pt] ++ r.2 ++ [Call.ici_get_buf_virt sn.f data_pages] ++ unwind)

/-! ## Accounting of guest-memory mappings -/

/-- Guest-physical addresses whose mapping was acquired (`map_guest_phys` returned a
mapping), in call order. -/
def acquired : List Call → List Nat
  | [] => []
  | Call.map_guest_phys _ gpa _ (some _) :: cs => gpa :: acquired cs
  | _ :: cs => acquired cs

/-- Guest-physical addresses passed to `unmap_guest_phys`, in call order. -/
def released : List Call → List Nat
  | [] => []
  | Call.unmap_guest_phys _ gpa :: cs => gpa :: released cs
  | _ :: cs => released cs

/-- Files passed to `filp_close`, in call order. -/
def closed : List Call → List file
  | [] => []
  | Call.filp_close f :: cs => f :: closed cs
  | _ :: cs => closed cs

/-- Files on which a native stream operation (`ipu_ioctl_ops`, the wait queue or the
wake-up) was invoked, in call order. -/
def native_ops : List Call → List file
  | [] => []
  | Call.ici_set_format f :: cs => f :: native_ops cs
  | Call.ici_put_buf f :: cs => f :: native_ops cs
  | Call.ici_get_buf_virt f _ :: cs => f :: native_ops cs
  | Call.ici_stream_on f :: cs => f :: native_ops cs
  | Call.ici_stream_off f :: cs => f :: native_ops cs
  | Call.wait_event_interruptible_timeout f _ :: cs => f :: native_ops cs
  | Call.wake_up_interruptible f :: cs => f :: native_ops cs
  | Call.filp_close f :: cs => f :: native_ops cs
  | _ :: cs => native_ops cs

/-! ## Registry predicates -/

/-- All nodes linked in the table, bucket by bucket. -/
def Registry.nodes (reg : Registry) : List stream_node :=
  (List.finRange HASH_SIZE).flatMap reg.STREAM_NODE_HASH

/-- While `hash_initialised` is false nothing has been added to the zero-initialised
table. -/
def Registry.wf (reg : Registry) : Prop :=
  reg.hash_initialised = false → ∀ b, reg.STREAM_NODE_HASH b = []

/-- The registry with every node handed over to guest `g`; files and buckets stay. -/
def Registry.chown (g : Int) (reg : Registry) : Registry :=
  { reg with STREAM_NODE_HASH := fun b =>
      (reg.STREAM_NODE_HASH b).map (fun sn => { sn with client_id := g }) }

/-! ## Concrete requests and environments -/

/-- A request record whose first operand is the virtual stream id `v`. -/
def req_of (v : Nat) (payload : Nat) : ipu4_virtio_req :=
  { req_id := 0, stat := 0, cmd := 0, func_ret := 0, op := fun i => if i = 0 then v else 0,
    payload := payload }

/-- An environment in which every allocation, mapping and native call succeeds: the
page table of every descriptor lists `n` pages at `0x1000`, `0x2000`, ... . -/
def env_ok (n : Nat) : Env :=
  { POLLIN := 1, ERESTARTSYS := 512, PAGE_SIZE := 4096,
    sizeof_ici_stream_format := 64, sizeof_ici_frame_info := 64,
    sizeof_ici_frame_buf_wrapper := 128,
    kzalloc := true, kcalloc := fun _ => true,
    filp_open := fun _ => some { addr := 7, private_data := some { virt_dev_id := 0 } },
    map_guest_phys := fun _ gpa _ => some (gpa + 0x80000000),
    npages := fun _ => n, page_table_ref := fun _ => 0x500000,
    page_table := fun _ i => (i + 1) * 0x1000,
    virt_to_page := fun a => a / 4096,
    ici_set_format := fun _ _ => 0, ici_put_buf := fun _ _ => 0,
    ici_get_buf_virt := fun _ _ _ => 0, ici_stream_on := fun _ => 0,
    ici_stream_off := fun _ => 0,
    putbuf_list_empty := fun _ => false, wait_result := fun _ => 1,
    streaming := fun _ => true }

/-- The environment `env_ok n` except that mapping the guest page at `bad` fails. -/
def env_page_fail (n : Nat) (bad : Nat) : Env :=
  { env_ok n with
    map_guest_phys := fun _ gpa _ => if gpa = bad then none else some (gpa + 0x80000000) }

/-- An initialised registry whose only node sits in the bucket of stream id `v`,
owned by guest `g`, bound to an open stream device. -/
def reg_one (hash_min : Nat → Fin HASH_SIZE) (v : Nat) (g : Int) : Registry :=
  { hash_initialised := true,
    STREAM_NODE_HASH := hash_add hash_min hash_init
      { client_id := g, f := { addr := 7, private_data := some { virt_dev_id := v } } } v }

/-- The environment `env_ok 0` with an empty ready queue, in which the wait returns
`t` and streaming is `s` afterwards. -/
def env_wait (t : Int) (s : Bool) : Env :=
  { env_ok 0 with putbuf_list_empty := fun _ => true, wait_result := fun _ => t,
                  streaming := fun _ => s }

/-- What the guest and the collaborators observe of an outcome: the status returned,
the calls issued, and the two output fields of the request record. -/
def Outcome.served (o : Outcome) : Int × List Call × Nat × Nat :=
  (o.status, o.calls, o.req.stat, o.req.func_ret)

/-- What holds of the registry between two handlers run one after the other: nothing
is linked before initialisation, a bucket holds at most one node, and the file of every
node has a stream device. -/
def Registry.inv (reg : Registry) : Prop :=
  reg.wf ∧ (∀ b, (reg.STREAM_NODE_HASH b).length ≤ 1) ∧
    (∀ b sn, sn ∈ reg.STREAM_NODE_HASH b → sn.f.private_data ≠ none)

/-- An initialised registry holding stream `v1` on file 7 and stream `v2` on file 8,
both owned by guest `g`. -/
def reg_two (hash_min : Nat → Fin HASH_SIZE) (v1 v2 : Nat) (g : Int) : Registry :=
  { hash_initialised := true,
    STREAM_NODE_HASH := hash_add hash_min
      (hash_add hash_min hash_init
        { client_id := g, f := { addr := 7, private_data := some { virt_dev_id := v1 } } } v1)
      { client_id := g, f := { addr := 8, private_data := some { virt_dev_id := v2 } } } v2 }

/-! ## Supporting lemmas -/

theorem close_bucket_eq (l : List stream_node) :
    close_bucket l = (l.map (fun sn => Call.filp_close sn.f), []) := by
  induction l with
  | nil => rfl
  | cons sn rest ih => simp [close_bucket, ih]

theorem closed_map_filp_close (l : List stream_node) :
    closed (l.map (fun sn => Call.filp_close sn.f)) = l.map (fun sn => sn.f) := by
  induction l with
  | nil => rfl
  | cons sn rest ih => simp [closed, ih]

theorem closed_append (a b : List Call) : closed (a ++ b) = closed a ++ closed b := by
  induction a with
  | nil => rfl
  | cons c cs ih => cases c <;> simp [closed, ih]

theorem cleanup_loop_eq (bkts : List (Fin HASH_SIZE)) (t : Table) (calls : List Call)
    (hnd : bkts.Nodup) :
    cleanup_loop bkts (t, calls) =
      (fun b => if b ∈ bkts then [] else t b,
        calls ++ (bkts.flatMap t).map (fun sn => Call.filp_close sn.f)) := by
  induction bkts generalizing t calls with
  | nil => simp [cleanup_loop]
  | cons bkt rest ih =>
    have hnot : bkt ∉ rest := (List.nodup_cons.mp hnd).1
    have hrest : rest.Nodup := (List.nodup_cons.mp hnd).2
    have hflat : rest.flatMap (Function.update t bkt []) = rest.flatMap t := by
      apply List.flatMap_congr
      intro b hb
      have : b ≠ bkt := fun h => hnot (h ▸ hb)
      simp [Function.update, this]
    simp only [cleanup_loop, close_bucket_eq, ih _ _ hrest, hflat]
    refine Prod.ext ?_ ?_
    · funext b
      by_cases h1 : b = bkt
      · subst h1; simp [hnot]
      · simp [h1, Function.update]
    · simp [List.flatMap_cons, List.map_append, List.append_assoc]

theorem hash_empty_iff (t : Table) : hash_empty t = true ↔ ∀ b, t b = [] := by
  simp [hash_empty, List.all_eq_true, List.isEmpty_iff]

theorem mem_nodes_iff (reg : Registry) (sn : stream_node) :
    sn ∈ reg.nodes ↔ ∃ b, sn ∈ reg.STREAM_NODE_HASH b := by
  simp [Registry.nodes, List.mem_flatMap, List.mem_finRange]

theorem nodes_eq_nil_of_empty (reg : Registry) (h : ∀ b, reg.STREAM_NODE_HASH b = []) :
    reg.nodes = [] := by
  cases hn : reg.nodes with
  | nil => rfl
  | cons sn rest =>
    have hm : sn ∈ reg.nodes := by rw [hn]; exact List.mem_cons_self _ _
    obtain ⟨b, hb⟩ := (mem_nodes_iff reg sn).mp hm
    rw [h b] at hb
    exact absurd hb (List.not_mem_nil _)

theorem cleanup_stream_eq (reg : Registry) :
    cleanup_stream reg =
      ({ reg with STREAM_NODE_HASH := fun _ => [] },
        reg.nodes.map (fun sn => Call.filp_close sn.f)) := by
  by_cases he : hash_empty reg.STREAM_NODE_HASH = true
  · have hall := (hash_empty_iff _).mp he
    have hfun : reg.STREAM_NODE_HASH = fun _ => [] := funext hall
    simp only [cleanup_stream, he, nodes_eq_nil_of_empty reg hall]
    cases reg
    simp_all
  · simp only [cleanup_stream, he, cleanup_loop_eq _ _ _ (List.nodup_finRange _)]
    simp [Registry.nodes, List.mem_finRange]

theorem bucket_collision (hash_min : Nat → Fin HASH_SIZE) :
    ∃ v w : Nat, v < 65 ∧ w < 65 ∧ v ≠ w ∧ hash_min v = hash_min w := by
  obtain ⟨x, y, hne, heq⟩ :=
    Fintype.exists_ne_map_eq_of_card_lt (fun i : Fin 65 => hash_min i.val)
      (by simp [HASH_SIZE, MAX_SIZE])
  exact ⟨x.val, y.val, x.isLt, y.isLt, fun h => hne (Fin.ext h), heq⟩

theorem node_name_fits_of_lt (op0 : Nat) (h : op0 % 2 ^ 32 < 10 ^ 7) :
    (node_name op0).length + 1 ≤ NODE_NAME_SIZE := by
  have hlt : op0 % 2 ^ 32 < 2 ^ 31 := lt_trans h (by norm_num)
  have hlen : (Nat.repr (op0 % 2 ^ 32)).length ≤ 7 := Nat.repr_length _ 7 (by norm_num) h
  have hpre : ("/dev/intel_stream" : String).length = 17 := by decide
  simp only [node_name, fmt_d, hlt, if_true, String.length_append, hpre, NODE_NAME_SIZE]
  omega

theorem node_name_fits_small (v : Nat) (hv : v < 65) :
    (node_name v).length + 1 ≤ NODE_NAME_SIZE :=
  node_name_fits_of_lt v (lt_of_le_of_lt (Nat.mod_le _ _) (lt_trans hv (by norm_num)))

theorem process_device_open_of_absent (hash_min : Nat → Fin HASH_SIZE) (env : Env)
    (reg : Registry) (req_info : ipu4_virtio_req_info) (f : file) (d : ici_stream_device)
    (hwf : reg.wf)
    (habsent : reg.STREAM_NODE_HASH (hash_min (req_info.request.op 0)) = [])
    (hname : (node_name (req_info.request.op 0)).length + 1 ≤ NODE_NAME_SIZE)
    (halloc : env.kzalloc = true)
    (hopen : env.filp_open (node_name (req_info.request.op 0)) = some f)
    (hdev : f.private_data = some d) :
    process_device_open hash_min env reg req_info =
      some { status := IPU4_REQ_PROCESSED, req := req_info.request,
             reg := { hash_initialised := true,
                      STREAM_NODE_HASH := hash_add hash_min reg.STREAM_NODE_HASH
                        { client_id := req_info.domid,
                          f := { addr := f.addr,
                                 private_data := some { virt_dev_id := req_info.request.op 0 } } }
                        (req_info.request.op 0) },
             calls := [Call.filp_open (node_name (req_info.request.op 0))] } := by
  have hlt : ¬ NODE_NAME_SIZE < (node_name (req_info.request.op 0)).length + 1 :=
    Nat.not_lt.mpr hname
  cases hi : reg.hash_initialised with
  | true =>
    simp [process_device_open, hi, hash_for_each_possible, habsent, hlt, halloc, hopen, hdev]
  | false =>
    have htab : reg.STREAM_NODE_HASH = hash_init := funext (hwf hi)
    simp [process_device_open, hi, hash_for_each_possible, hash_init, hlt, halloc, hopen,
      hdev, htab]

theorem chown_bucket (g : Int) (reg : Registry) (b : Fin HASH_SIZE) :
    (reg.chown g).STREAM_NODE_HASH b =
      (reg.STREAM_NODE_HASH b).map (fun sn => { sn with client_id := g }) := rfl

theorem acquired_append (a b : List Call) : acquired (a ++ b) = acquired a ++ acquired b := by
  induction a with
  | nil => rfl
  | cons c cs ih =>
    cases c with
    | map_guest_phys dom gpa size ret => cases ret <;> simp [acquired, ih]
    | _ => simp [acquired, ih]

theorem released_append (a b : List Call) : released (a ++ b) = released a ++ released b := by
  induction a with
  | nil => rfl
  | cons c cs ih => cases c <;> simp [released, ih]

theorem released_unmap (domid : Int) (l : List Nat) :
    released (l.map (Call.unmap_guest_phys domid)) = l := by
  induction l with
  | nil => rfl
  | cons a l ih => simp [released, ih]

theorem acquired_unmap (domid : Int) (l : List Nat) :
    acquired (l.map (Call.unmap_guest_phys domid)) = [] := by
  induction l with
  | nil => rfl
  | cons a l ih => simp [acquired, ih]

theorem acquired_map_pages (env : Env) (domid : Int) (l : List Nat) :
    acquired (map_pages env domid l).2 =
      l.takeWhile (fun gpa => (env.map_guest_phys domid gpa env.PAGE_SIZE).isSome) := by
  induction l with
  | nil => rfl
  | cons a l ih =>
    cases h : env.map_guest_phys domid a env.PAGE_SIZE with
    | none => simp [map_pages, h, acquired, List.takeWhile]
    | some p => simp [map_pages, h, acquired, List.takeWhile, ih]

theorem released_map_pages (env : Env) (domid : Int) (l : List Nat) :
    released (map_pages env domid l).2 = [] := by
  induction l with
  | nil => rfl
  | cons a l ih =>
    cases h : env.map_guest_phys domid a env.PAGE_SIZE with
    | none => simp [map_pages, h, released]
    | some p => simp [map_pages, h, released, ih]

/-- Accounting of `process_get_buf` once the payload and the page table are mapped:
the pages acquired are the page-table entries up to the first one whose mapping fails,
the addresses released are all `npages` page-table entries, then the page table, then
the payload; and the status is Error only when the device is missing or the native
get-buffer fails. -/
theorem process_get_buf_accounting (hash_min : Nat → Fin HASH_SIZE) (env : Env)
    (reg : Registry) (req_info : ipu4_virtio_req_info) (sn : stream_node)
    (rest : List stream_node) (shared_buf page_table : Nat)
    (hinit : reg.hash_initialised = true)
    (hentry : reg.STREAM_NODE_HASH (hash_min (req_info.request.op 0)) = sn :: rest)
    (hpayload : env.map_guest_phys req_info.domid req_info.request.payload
      env.sizeof_ici_frame_buf_wrapper = some shared_buf)
    (halloc : env.kcalloc (env.npages shared_buf) = true)
    (hpt : env.map_guest_phys req_info.domid (env.page_table_ref shared_buf)
      (env.npages shared_buf * 8) = some page_table) :
    acquired (process_get_buf hash_min env reg req_info).calls =
      req_info.request.payload :: env.page_table_ref shared_buf ::
        ((List.range (env.npages shared_buf)).map (env.page_table page_table)).takeWhile
          (fun gpa => (env.map_guest_phys req_info.domid gpa env.PAGE_SIZE).isSome) ∧
    released (process_get_buf hash_min env reg req_info).calls =
      (List.range (env.npages shared_buf)).map (env.page_table page_table) ++
        [env.page_table_ref shared_buf, req_info.request.payload] ∧
    (∀ d, sn.f.private_data = some d →
      (process_get_buf hash_min env reg req_info).status =
        if env.ici_get_buf_virt sn.f shared_buf
            (((map_pages env req_info.domid
                ((List.range (env.npages shared_buf)).map (env.page_table page_table))).1.map
                some) ++
              List.replicate (env.npages shared_buf -
                (map_pages env req_info.domid
                  ((List.range (env.npages shared_buf)).map
                    (env.page_table page_table))).1.length) none) ≠ 0
        then IPU4_REQ_ERROR else IPU4_REQ_PROCESSED) := by
  refine ⟨?_, ?_, ?_⟩
  · simp only [process_get_buf, hinit, hash_for_each_possible, hentry, hpayload, halloc, hpt]
    cases sn.f.private_data <;>
      simp [get_buf_exit, acquired, acquired_append, acquired_map_pages, acquired_unmap,
        -List.map_map]
  · simp only [process_get_buf, hinit, hash_for_each_possible, hentry, hpayload, halloc, hpt]
    cases sn.f.private_data <;>
      simp [get_buf_exit, released, released_append, released_map_pages, released_unmap,
        -List.map_map]
  · intro d hd
    simp only [process_get_buf, hinit, hash_for_each_possible, hentry, hpayload, halloc, hpt, hd]
    simp [get_buf_exit]

/-! ## The registry between handlers

The state at load time satisfies `Registry.inv` and every handler keeps it, so the
hypotheses of the statements below are met by every registry the handlers produce
when run one after the other. -/

/-- The registry at load time satisfies the invariant. -/
theorem inv_boot : Registry.boot.inv :=
  ⟨fun _ _ => rfl, fun _ => Nat.zero_le _, fun _ _ h => absurd h (List.not_mem_nil _)⟩

/-- Open keeps the invariant: it links a node only into an empty bucket, and only a node
whose file has a stream device. -/
theorem inv_open (hash_min : Nat → Fin HASH_SIZE) (env : Env) (reg : Registry)
    (req_info : ipu4_virtio_req_info) (o : Outcome) (hinv : reg.inv)
    (ho : process_device_open hash_min env reg req_info = some o) : o.reg.inv := by
  obtain ⟨hwf, hlen, hdev⟩ := hinv
  have hreg1 : (if (!reg.hash_initialised) = true then
      ({ hash_initialised := true, STREAM_NODE_HASH := hash_init } : Registry) else reg) =
      { hash_initialised := true, STREAM_NODE_HASH := reg.STREAM_NODE_HASH } := by
    cases hi : reg.hash_initialised with
    | true => cases reg; simp_all
    | false =>
      simp only [show reg.STREAM_NODE_HASH = fun _ => [] from funext (hwf hi)]
      rfl
  have hkeep : Registry.inv
      { hash_initialised := true, STREAM_NODE_HASH := reg.STREAM_NODE_HASH } :=
    ⟨fun h => absurd h (by simp), hlen, hdev⟩
  simp only [process_device_open, hreg1, hash_for_each_possible] at ho
  cases hb : reg.STREAM_NODE_HASH (hash_min (req_info.request.op 0)) with
  | cons sn rest =>
    simp only [hb] at ho
    split at ho <;> (cases ho; exact hkeep)
  | nil =>
    simp only [hb] at ho
    split at ho
    · cases ho
    · split at ho
      · cases ho
      · split at ho
        · cases ho
        · split at ho
          · cases ho; exact hkeep
          · cases ho
            refine ⟨fun h => absurd h (by simp), ?_, ?_⟩
            · intro b
              by_cases hbb : b = hash_min (req_info.request.op 0)
              · subst hbb; simp [hash_add, hb]
              · simpa [hash_add, Function.update, hbb] using hlen b
            · intro b sn hsn
              by_cases hbb : b = hash_min (req_info.request.op 0)
              · subst hbb
                simp [hash_add, hb] at hsn
                subst hsn
                simp
              · simp [hash_add, Function.update, hbb] at hsn
                exact hdev b sn hsn

/-- Close keeps the invariant. -/
theorem inv_close (hash_min : Nat → Fin HASH_SIZE) (reg : Registry)
    (req_info : ipu4_virtio_req_info) (hinv : reg.inv) :
    (process_device_close hash_min reg req_info).reg.inv := by
  obtain ⟨hwf, hlen, hdev⟩ := hinv
  cases hi : reg.hash_initialised with
  | false => simpa [process_device_close, hi] using ⟨hwf, hlen, hdev⟩
  | true =>
    simp only [process_device_close, hi, close_bucket_eq, hash_for_each_possible]
    refine ⟨fun h => absurd h (by simp [hi]), ?_, ?_⟩
    · intro b
      by_cases hbb : b = hash_min (req_info.request.op 0)
      · subst hbb; simp
      · simpa [Function.update, hbb] using hlen b
    · intro b sn hsn
      by_cases hbb : b = hash_min (req_info.request.op 0)
      · subst hbb; simp at hsn
      · simp [Function.update, hbb] at hsn
        exact hdev b sn hsn

/-- The recovery establishes the invariant. -/
theorem inv_cleanup (reg : Registry) : (cleanup_stream reg).1.inv := by
  rw [cleanup_stream_eq]
  exact ⟨fun _ _ => rfl, fun _ => Nat.zero_le _, fun _ _ h => absurd h (List.not_mem_nil _)⟩

/-- The other handlers return the registry they were given. -/
theorem reg_unchanged (hash_min : Nat → Fin HASH_SIZE) (env : Env) (reg : Registry)
    (req_info : ipu4_virtio_req_info) :
    (process_set_format hash_min env reg req_info).reg = reg ∧
    (process_stream_on hash_min env reg req_info).reg = reg ∧
    (process_stream_off hash_min env reg req_info).reg = reg ∧
    (process_put_buf hash_min env reg req_info).reg = reg ∧
    (process_get_buf hash_min env reg req_info).reg = reg ∧
    (∀ o, process_poll hash_min env reg req_info = some o → o.reg = reg) := by
  refine ⟨?_, ?_, ?_, ?_, ?_, ?_⟩
  · simp only [process_set_format]; repeat' split
    all_goals rfl
  · simp only [process_stream_on]; repeat' split
    all_goals rfl
  · simp only [process_stream_off]; repeat' split
    all_goals rfl
  · simp only [process_put_buf]; repeat' split
    all_goals rfl
  · simp only [process_get_buf]; repeat' split
    all_goals rfl
  · intro o ho
    simp only [process_poll] at ho
    repeat' split at ho
    all_goals first | (cases ho; rfl) | cases ho

/-! ## Claims -/

/-- C1, counterexample. On an initialised registry that holds stream 2 only, hence no
entry for stream 5, `Close(5)` returns Processed, not Error. Moreover, with the bucket
function `hash_32` and only stream 2 open, `StreamOn(36)` returns Processed after
running the native stream-on on the file of stream 2; and whatever the bucket
function, two distinct ids below 65 exist such that, with only the second one open,
StreamOn for the first is not answered with Error. -/
theorem absent_entry_not_error :
    ((process_device_close hash_32 (reg_one hash_32 2 1) ⟨req_of 5 0, 1⟩).status =
        IPU4_REQ_PROCESSED ∧
      (process_device_close hash_32 (reg_one hash_32 2 1) ⟨req_of 5 0, 1⟩).status ≠
        IPU4_REQ_ERROR) ∧
    ((process_stream_on hash_32 (env_ok 0) (reg_one hash_32 2 1) ⟨req_of 36 0, 1⟩).status =
        IPU4_REQ_PROCESSED ∧
      (process_stream_on hash_32 (env_ok 0) (reg_one hash_32 2 1) ⟨req_of 36 0, 1⟩).calls =
        [Call.ici_stream_on { addr := 7, private_data := some { virt_dev_id := 2 } }]) ∧
    ¬ ∃ hash_min : Nat → Fin HASH_SIZE, ∀ v w : Nat, v < 65 → w < 65 → v ≠ w →
        (process_stream_on hash_min (env_ok 0) (reg_one hash_min w 1) ⟨req_of v 0, 1⟩).status =
          IPU4_REQ_ERROR := by
  refine ⟨⟨by decide, by decide⟩, ⟨by decide, by decide⟩, ?_⟩
  rintro ⟨hash_min, h⟩
  obtain ⟨v, w, hv, hw, hne, heq⟩ := bucket_collision hash_min
  have hst := h v w hv hw hne
  simp [process_stream_on, hash_for_each_possible, hash_add, req_of, reg_one, heq, env_ok] at hst
  have h2 : IPU4_REQ_PROCESSED = IPU4_REQ_ERROR := hst
  exact absurd h2 (by decide)

/-- C1, amended. When the bucket that `v` hashes to holds no node, SetFormat, StreamOn, StreamOff,
PutBuffer, GetBuffer and Poll issued for `v` return Error and issue no call; Close
issued for `v` returns Processed, issues no call and leaves every bucket as it was. -/
theorem absent_entry_status (hash_min : Nat → Fin HASH_SIZE) (env : Env) (reg : Registry)
    (req_info : ipu4_virtio_req_info)
    (habsent : reg.STREAM_NODE_HASH (hash_min (req_info.request.op 0)) = []) :
    ((process_set_format hash_min env reg req_info).status = IPU4_REQ_ERROR ∧
      (process_set_format hash_min env reg req_info).calls = []) ∧
    ((process_stream_on hash_min env reg req_info).status = IPU4_REQ_ERROR ∧
      (process_stream_on hash_min env reg req_info).calls = []) ∧
    ((process_stream_off hash_min env reg req_info).status = IPU4_REQ_ERROR ∧
      (process_stream_off hash_min env reg req_info).calls = []) ∧
    ((process_put_buf hash_min env reg req_info).status = IPU4_REQ_ERROR ∧
      (process_put_buf hash_min env reg req_info).calls = []) ∧
    ((process_get_buf hash_min env reg req_info).status = IPU4_REQ_ERROR ∧
      (process_get_buf hash_min env reg req_info).calls = []) ∧
    (∃ o, process_poll hash_min env reg req_info = some o ∧
      o.status = IPU4_REQ_ERROR ∧ o.calls = []) ∧
    ((process_device_close hash_min reg req_info).status = IPU4_REQ_PROCESSED ∧
      (process_device_close hash_min reg req_info).calls = [] ∧
      (process_device_close hash_min reg req_info).reg.STREAM_NODE_HASH =
        reg.STREAM_NODE_HASH) := by
  refine ⟨?_, ?_, ?_, ?_, ?_, ?_, ?_⟩
  · cases hi : reg.hash_initialised <;>
      simp [process_set_format, hi, hash_for_each_possible, habsent]
  · cases hi : reg.hash_initialised <;>
      simp [process_stream_on, hi, hash_for_each_possible, habsent]
  · cases hi : reg.hash_initialised <;>
      simp [process_stream_off, hi, hash_for_each_possible, habsent]
  · cases hi : reg.hash_initialised <;>
      simp [process_put_buf, hi, hash_for_each_possible, habsent]
  · cases hi : reg.hash_initialised <;>
      simp [process_get_buf, hi, hash_for_each_possible, habsent]
  · cases hi : reg.hash_initialised <;>
      simp [process_poll, hi, hash_for_each_possible, habsent]
  · cases hi : reg.hash_initialised
    · simp [process_device_close, hi]
    · simp only [process_device_close, hi, hash_for_each_possible, habsent, close_bucket]
      refine ⟨by simp, by simp, ?_⟩
      funext b
      by_cases hb : b = hash_min (req_info.request.op 0)
      · subst hb; simp [habsent]
      · simp [Function.update, hb]

/-- Witness of C1, amended: requests for stream 5 on a registry that only holds
stream 0. -/
theorem absent_entry_status_witness :
    (process_stream_on hash_32 (env_ok 0) (reg_one hash_32 0 1) ⟨req_of 5 0, 1⟩).status =
      IPU4_REQ_ERROR ∧
    (process_get_buf hash_32 (env_ok 0) (reg_one hash_32 0 1) ⟨req_of 5 0, 1⟩).status =
      IPU4_REQ_ERROR ∧
    (process_device_close hash_32 (reg_one hash_32 0 1) ⟨req_of 5 0, 1⟩).status =
      IPU4_REQ_PROCESSED :=
  ⟨(absent_entry_status hash_32 (env_ok 0) (reg_one hash_32 0 1) ⟨req_of 5 0, 1⟩
      (by decide)).2.1.1,
   (absent_entry_status hash_32 (env_ok 0) (reg_one hash_32 0 1) ⟨req_of 5 0, 1⟩
      (by decide)).2.2.2.2.1.1,
   (absent_entry_status hash_32 (env_ok 0) (reg_one hash_32 0 1) ⟨req_of 5 0, 1⟩
      (by decide)).2.2.2.2.2.2.1⟩

/-- C2, counterexample. Stream 5 is bound for guest 1. `StreamOn(5)` issued by guest 2
returns Processed and runs the native stream-on on the file of guest 1; `Close(5)`
issued by guest 2 returns Processed and closes that file. -/
theorem other_guest_is_served :
    (process_stream_on hash_32 (env_ok 0) (reg_one hash_32 5 1) ⟨req_of 5 0, 2⟩).status =
      IPU4_REQ_PROCESSED ∧
    native_ops (process_stream_on hash_32 (env_ok 0) (reg_one hash_32 5 1) ⟨req_of 5 0, 2⟩).calls =
      [{ addr := 7, private_data := some { virt_dev_id := 5 } }] ∧
    (process_device_close hash_32 (reg_one hash_32 5 1) ⟨req_of 5 0, 2⟩).status =
      IPU4_REQ_PROCESSED ∧
    closed (process_device_close hash_32 (reg_one hash_32 5 1) ⟨req_of 5 0, 2⟩).calls =
      [{ addr := 7, private_data := some { virt_dev_id := 5 } }] := by
  refine ⟨by decide, by decide, by decide, by decide⟩

/-- C2, amended. No handler other than Open compares the owner of the entry with the
requesting guest: handing every node of the registry to another guest `g` changes
neither the status a handler returns, nor the calls it issues (native operations
included), nor what it writes to the request record. -/
theorem owner_not_checked (hash_min : Nat → Fin HASH_SIZE) (env : Env) (reg : Registry)
    (req_info : ipu4_virtio_req_info) (g : Int) :
    (process_device_close hash_min (reg.chown g) req_info).served =
      (process_device_close hash_min reg req_info).served ∧
    (process_set_format hash_min env (reg.chown g) req_info).served =
      (process_set_format hash_min env reg req_info).served ∧
    (process_stream_on hash_min env (reg.chown g) req_info).served =
      (process_stream_on hash_min env reg req_info).served ∧
    (process_stream_off hash_min env (reg.chown g) req_info).served =
      (process_stream_off hash_min env reg req_info).served ∧
    (process_put_buf hash_min env (reg.chown g) req_info).served =
      (process_put_buf hash_min env reg req_info).served ∧
    (process_get_buf hash_min env (reg.chown g) req_info).served =
      (process_get_buf hash_min env reg req_info).served ∧
    (process_poll hash_min env (reg.chown g) req_info).map Outcome.served =
      (process_poll hash_min env reg req_info).map Outcome.served := by
  have hi : (reg.chown g).hash_initialised = reg.hash_initialised := rfl
  refine ⟨?_, ?_, ?_, ?_, ?_, ?_, ?_⟩
  · cases hinit : reg.hash_initialised <;>
      simp [process_device_close, hi, hinit, Outcome.served, close_bucket_eq,
        hash_for_each_possible, chown_bucket, Function.comp_def]
  all_goals
    cases hinit : reg.hash_initialised
    · simp [process_set_format, process_stream_on, process_stream_off, process_put_buf,
        process_get_buf, process_poll, hi, hinit, Outcome.served]
    · cases hb : reg.STREAM_NODE_HASH (hash_min (req_info.request.op 0)) with
      | nil =>
        simp [process_set_format, process_stream_on, process_stream_off, process_put_buf,
          process_get_buf, process_poll, hi, hinit, Outcome.served, hash_for_each_possible,
          chown_bucket, hb]
      | cons sn rest =>
        simp only [process_set_format, process_stream_on, process_stream_off, process_put_buf,
          process_get_buf, process_poll, hi, hinit, hash_for_each_possible, chown_bucket, hb,
          List.map_cons]
        repeat' split
        all_goals rfl

/-- C3. When the bucket of `v` already holds a node, whoever owns it, `Open(v)` returns
Error, issues no call at all (in particular no `filp_open`), and returns the registry
exactly as it was. -/
theorem open_existing_entry_rejected (hash_min : Nat → Fin HASH_SIZE) (env : Env)
    (reg : Registry) (req_info : ipu4_virtio_req_info) (hwf : reg.wf)
    (hentry : reg.STREAM_NODE_HASH (hash_min (req_info.request.op 0)) ≠ []) :
    ∃ o, process_device_open hash_min env reg req_info = some o ∧
      o.status = IPU4_REQ_ERROR ∧ o.calls = [] ∧ o.reg = reg ∧
      o.reg.STREAM_NODE_HASH (hash_min (req_info.request.op 0)) =
        reg.STREAM_NODE_HASH (hash_min (req_info.request.op 0)) := by
  have hinit : reg.hash_initialised = true := by
    cases h : reg.hash_initialised with
    | true => rfl
    | false => exact absurd (hwf h _) hentry
  cases hb : reg.STREAM_NODE_HASH (hash_min (req_info.request.op 0)) with
  | nil => exact absurd hb hentry
  | cons sn rest =>
    refine ⟨{ status := IPU4_REQ_ERROR, req := req_info.request, reg := reg, calls := [] },
      ?_, rfl, rfl, rfl, hb⟩
    simp [process_device_open, hinit, hash_for_each_possible, hb]

/-- Witness of C3: stream 5 is bound for guest 1; guest 1 and guest 2 open it again. -/
theorem open_existing_entry_rejected_witness :
    (∃ o, process_device_open hash_32 (env_ok 0) (reg_one hash_32 5 1) ⟨req_of 5 0, 1⟩ = some o ∧
      o.status = IPU4_REQ_ERROR ∧ o.calls = [] ∧ o.reg = reg_one hash_32 5 1 ∧
      o.reg.STREAM_NODE_HASH (hash_32 5) = (reg_one hash_32 5 1).STREAM_NODE_HASH (hash_32 5)) ∧
    (∃ o, process_device_open hash_32 (env_ok 0) (reg_one hash_32 5 1) ⟨req_of 5 0, 2⟩ = some o ∧
      o.status = IPU4_REQ_ERROR ∧ o.calls = [] ∧ o.reg = reg_one hash_32 5 1 ∧
      o.reg.STREAM_NODE_HASH (hash_32 5) = (reg_one hash_32 5 1).STREAM_NODE_HASH (hash_32 5)) :=
  ⟨open_existing_entry_rejected hash_32 (env_ok 0) (reg_one hash_32 5 1) ⟨req_of 5 0, 1⟩
      (fun h => absurd h (by decide)) (by decide),
   open_existing_entry_rejected hash_32 (env_ok 0) (reg_one hash_32 5 1) ⟨req_of 5 0, 2⟩
      (fun h => absurd h (by decide)) (by decide)⟩

/-- C4, failing input. With the bucket function `hash_32`, `Open(2)` on the registry at
load time returns Processed; the registry then holds no entry for stream 36 and the
native open would succeed, and yet `Open(36)` returns Error, issues no `filp_open` and
binds nothing. Whatever the bucket function, two distinct ids below 65 exist for which
opening the second after the first fails in the same way. Besides, `Open(10000000)` on
the registry at load time has no outcome, because the device name does not fit
`node_name`. -/
theorem open_absent_id_rejected :
    (∃ o, process_device_open hash_32 (env_ok 0) Registry.boot ⟨req_of 2 0, 1⟩ = some o ∧
      o.status = IPU4_REQ_PROCESSED ∧
      (∃ o2, process_device_open hash_32 (env_ok 0) o.reg ⟨req_of 36 0, 1⟩ = some o2 ∧
        o2.status = IPU4_REQ_ERROR ∧ o2.calls = [] ∧ o2.reg.nodes = o.reg.nodes)) ∧
    (¬ ∃ hash_min : Nat → Fin HASH_SIZE, ∀ v w : Nat, v < 65 → w < 65 → v ≠ w →
        ∀ o, process_device_open hash_min (env_ok 0) Registry.boot ⟨req_of w 0, 1⟩ = some o →
          ∃ o2, process_device_open hash_min (env_ok 0) o.reg ⟨req_of v 0, 1⟩ = some o2 ∧
            o2.status = IPU4_REQ_PROCESSED) ∧
    (process_device_open hash_32 (env_ok 0) Registry.boot ⟨req_of 10000000 0, 1⟩).isNone =
      true := by
  refine ⟨?_, ?_, by decide⟩
  · refine ⟨_, process_device_open_of_absent hash_32 (env_ok 0) Registry.boot ⟨req_of 2 0, 1⟩
      { addr := 7, private_data := some { virt_dev_id := 0 } } { virt_dev_id := 0 }
      (fun _ _ => rfl) rfl (by decide) rfl rfl rfl, rfl, ?_⟩
    refine ⟨{ status := IPU4_REQ_ERROR, req := req_of 36 0,
              reg := { hash_initialised := true,
                       STREAM_NODE_HASH := hash_add hash_32 Registry.boot.STREAM_NODE_HASH
                         { client_id := 1,
                           f := { addr := 7, private_data := some { virt_dev_id := 2 } } } 2 },
              calls := [] }, ?_, rfl, rfl, rfl⟩
    have hb : hash_32 36 = hash_32 2 := by decide
    simp [process_device_open, hash_for_each_possible, hash_add, req_of, hb]
  · rintro ⟨hash_min, h⟩
    obtain ⟨v, w, hv, hw, hne, heq⟩ := bucket_collision hash_min
    have ho := process_device_open_of_absent hash_min (env_ok 0) Registry.boot ⟨req_of w 0, 1⟩
      { addr := 7, private_data := some { virt_dev_id := 0 } } { virt_dev_id := 0 }
      (fun _ _ => rfl) rfl (node_name_fits_small w hw) rfl rfl rfl
    obtain ⟨o2, ho2, hst⟩ := h v w hv hw hne _ ho
    simp [process_device_open, hash_for_each_possible, hash_add, req_of, heq] at ho2
    rw [← ho2] at hst
    have h2 : IPU4_REQ_ERROR = IPU4_REQ_PROCESSED := hst
    exact absurd h2 (by decide)

/-- Open on an empty bucket. On a well-formed registry
whose bucket for `v` is empty, if the name of the device fits `node_name`, the node is
allocated and `filp_open` yields a file with a stream device, then `Open(v)` by guest
`domid` returns Processed after one
`filp_open` of the device name; afterwards the bucket of `v` holds exactly one
node, owned by `domid` and bound to the opened file (whose device now carries
`virt_dev_id = v`), and every other bucket is as before. -/
theorem open_absent_entry_binds (hash_min : Nat → Fin HASH_SIZE) (env : Env)
    (reg : Registry) (req_info : ipu4_virtio_req_info) (f : file) (d : ici_stream_device)
    (hwf : reg.wf)
    (habsent : reg.STREAM_NODE_HASH (hash_min (req_info.request.op 0)) = [])
    (hname : (node_name (req_info.request.op 0)).length + 1 ≤ NODE_NAME_SIZE)
    (halloc : env.kzalloc = true)
    (hopen : env.filp_open (node_name (req_info.request.op 0)) = some f)
    (hdev : f.private_data = some d) :
    ∃ o, process_device_open hash_min env reg req_info = some o ∧
      o.status = IPU4_REQ_PROCESSED ∧
      o.calls = [Call.filp_open (node_name (req_info.request.op 0))] ∧
      o.reg.hash_initialised = true ∧
      o.reg.STREAM_NODE_HASH (hash_min (req_info.request.op 0)) =
        [{ client_id := req_info.domid,
           f := { addr := f.addr,
                  private_data := some { virt_dev_id := req_info.request.op 0 } } }] ∧
      (∀ b, b ≠ hash_min (req_info.request.op 0) →
        o.reg.STREAM_NODE_HASH b = reg.STREAM_NODE_HASH b) := by
  refine ⟨_, process_device_open_of_absent hash_min env reg req_info f d hwf habsent hname
    halloc hopen hdev, rfl, rfl, rfl, ?_, ?_⟩
  · simp [hash_add, habsent]
  · intro b hb
    simp [hash_add, Function.update, hb]

/-- Open on an empty bucket, at a concrete request: stream 5 is opened by guest 2 on a
registry that holds stream 0 of guest 1. -/
theorem open_absent_entry_binds_witness :
    ∃ o, process_device_open hash_32 (env_ok 0) (reg_one hash_32 0 1) ⟨req_of 5 0, 2⟩ = some o ∧
      o.status = IPU4_REQ_PROCESSED ∧
      o.calls = [Call.filp_open (node_name 5)] ∧
      o.reg.hash_initialised = true ∧
      o.reg.STREAM_NODE_HASH (hash_32 5) =
        [{ client_id := 2, f := { addr := 7, private_data := some { virt_dev_id := 5 } } }] ∧
      (∀ b, b ≠ hash_32 5 →
        o.reg.STREAM_NODE_HASH b = (reg_one hash_32 0 1).STREAM_NODE_HASH b) :=
  open_absent_entry_binds hash_32 (env_ok 0) (reg_one hash_32 0 1) ⟨req_of 5 0, 2⟩
    { addr := 7, private_data := some { virt_dev_id := 0 } } { virt_dev_id := 0 }
    (fun h => absurd h (by decide)) (by decide) (by decide) rfl rfl rfl

/-- C5. On an initialised registry `Close(v)` returns Processed, empties the bucket of
`v` and leaves every other bucket as it was; the files it closes are exactly the files
of the nodes that were in the bucket of `v`, one `filp_close` per node (so a bucket
holding the single entry `sn` yields the single call `filp_close sn.f`); a second
`Close(v)` issues no call at all and changes nothing. -/
theorem close_removes_and_releases_once (hash_min : Nat → Fin HASH_SIZE) (reg : Registry)
    (req_info : ipu4_virtio_req_info) (hinit : reg.hash_initialised = true) :
    (process_device_close hash_min reg req_info).status = IPU4_REQ_PROCESSED ∧
    (process_device_close hash_min reg req_info).reg.hash_initialised = true ∧
    (process_device_close hash_min reg req_info).reg.STREAM_NODE_HASH
        (hash_min (req_info.request.op 0)) = [] ∧
    (∀ b, b ≠ hash_min (req_info.request.op 0) →
      (process_device_close hash_min reg req_info).reg.STREAM_NODE_HASH b =
        reg.STREAM_NODE_HASH b) ∧
    (process_device_close hash_min reg req_info).calls =
      (reg.STREAM_NODE_HASH (hash_min (req_info.request.op 0))).map
        (fun sn => Call.filp_close sn.f) ∧
    closed (process_device_close hash_min reg req_info).calls =
      (reg.STREAM_NODE_HASH (hash_min (req_info.request.op 0))).map (fun sn => sn.f) ∧
    (∀ sn, reg.STREAM_NODE_HASH (hash_min (req_info.request.op 0)) = [sn] →
      (process_device_close hash_min reg req_info).calls = [Call.filp_close sn.f]) ∧
    (process_device_close hash_min
        (process_device_close hash_min reg req_info).reg req_info).calls = [] ∧
    (process_device_close hash_min
        (process_device_close hash_min reg req_info).reg req_info).status =
      IPU4_REQ_PROCESSED ∧
    (process_device_close hash_min
        (process_device_close hash_min reg req_info).reg req_info).reg.STREAM_NODE_HASH =
      (process_device_close hash_min reg req_info).reg.STREAM_NODE_HASH := by
  refine ⟨?_, ?_, ?_, ?_, ?_, ?_, ?_, ?_, ?_, ?_⟩
  · simp [process_device_close, hinit]
  · simp [process_device_close, hinit]
  · simp [process_device_close, hinit, close_bucket_eq, hash_for_each_possible]
  · intro b hb
    simp [process_device_close, hinit, Function.update, hb]
  · simp [process_device_close, hinit, close_bucket_eq, hash_for_each_possible]
  · simp [process_device_close, hinit, close_bucket_eq, hash_for_each_possible,
      closed_map_filp_close]
  · intro sn hsn
    simp [process_device_close, hinit, close_bucket_eq, hash_for_each_possible, hsn]
  · simp [process_device_close, hinit, close_bucket_eq, hash_for_each_possible]
  · simp [process_device_close, hinit]
  · simp [process_device_close, hinit, close_bucket_eq, hash_for_each_possible]

/-- Witness of C5: closing stream 5 on a registry that holds exactly that stream. -/
theorem close_removes_and_releases_once_witness :
    (reg_one hash_32 5 1).STREAM_NODE_HASH (hash_32 5) =
      [{ client_id := 1, f := { addr := 7, private_data := some { virt_dev_id := 5 } } }] ∧
    (process_device_close hash_32 (reg_one hash_32 5 1) ⟨req_of 5 0, 1⟩).calls =
      [Call.filp_close { addr := 7, private_data := some { virt_dev_id := 5 } }] ∧
    (process_device_close hash_32
      (process_device_close hash_32 (reg_one hash_32 5 1) ⟨req_of 5 0, 1⟩).reg
      ⟨req_of 5 0, 1⟩).calls = [] :=
  ⟨by decide,
   (close_removes_and_releases_once hash_32 (reg_one hash_32 5 1) ⟨req_of 5 0, 1⟩ rfl).2.2.2.2.2.2.1
     { client_id := 1, f := { addr := 7, private_data := some { virt_dev_id := 5 } } } (by decide),
   (close_removes_and_releases_once hash_32 (reg_one hash_32 5 1) ⟨req_of 5 0, 1⟩
     rfl).2.2.2.2.2.2.2.1⟩

/-- C6, failing input. Stream 5 is bound, the descriptor has two pages, the payload,
the page table and page 0 map, the mapping of page 1 fails, and the native get-buffer
returns 0: `process_get_buf` returns Processed (and stores 0 in `req->stat`), after
handing the native get-buffer a page list whose second slot is empty. The page that was
mapped is among the addresses unmapped. -/
theorem get_buf_page_failure_processed :
    (process_get_buf hash_32 (env_page_fail 2 0x2000) (reg_one hash_32 5 1)
      ⟨req_of 5 0x9000, 1⟩).status = IPU4_REQ_PROCESSED ∧
    (process_get_buf hash_32 (env_page_fail 2 0x2000) (reg_one hash_32 5 1)
      ⟨req_of 5 0x9000, 1⟩).req.stat = 0 ∧
    (process_get_buf hash_32 (env_page_fail 2 0x2000) (reg_one hash_32 5 1)
      ⟨req_of 5 0x9000, 1⟩).calls =
      [Call.map_guest_phys 1 0x9000 128 (some 0x80009000),
       Call.map_guest_phys 1 0x500000 16 (some 0x80500000),
       Call.map_guest_phys 1 0x1000 4096 (some 0x80001000),
       Call.map_guest_phys 1 0x2000 4096 none,
       Call.ici_get_buf_virt { addr := 7, private_data := some { virt_dev_id := 5 } }
         [some 0x80001, none],
       Call.unmap_guest_phys 1 0x1000,
       Call.unmap_guest_phys 1 0x2000,
       Call.unmap_guest_phys 1 0x500000,
       Call.unmap_guest_phys 1 0x9000] := by
  refine ⟨by decide, by decide, by decide⟩

/-- C7, failing input. Stream 5 is bound, the descriptor has two pages, and the mapping
of page 0 fails. The mappings acquired are the payload and the page table; the
addresses unmapped are both pages, the page table and the payload: pages `0x1000` and
`0x2000` are unmapped although neither was mapped. -/
theorem get_buf_unmaps_unmapped_pages :
    acquired (process_get_buf hash_32 (env_page_fail 2 0x1000) (reg_one hash_32 5 1)
      ⟨req_of 5 0x9000, 1⟩).calls = [0x9000, 0x500000] ∧
    released (process_get_buf hash_32 (env_page_fail 2 0x1000) (reg_one hash_32 5 1)
      ⟨req_of 5 0x9000, 1⟩).calls = [0x1000, 0x2000, 0x500000, 0x9000] ∧
    acquired (process_get_buf hash_32 (env_ok 2) (reg_one hash_32 5 1)
      ⟨req_of 5 0x9000, 1⟩).calls = [0x9000, 0x500000, 0x1000, 0x2000] ∧
    released (process_get_buf hash_32 (env_ok 2) (reg_one hash_32 5 1)
      ⟨req_of 5 0x9000, 1⟩).calls = [0x1000, 0x2000, 0x500000, 0x9000] := by
  refine ⟨by decide, by decide, by decide, by decide⟩

/-- C8. Poll on an entry whose file is an open stream device. If the ready queue is
not empty the handler does not wait (it issues no call) and returns Processed with
`func_ret = 1`, which is not zero. If the queue is empty it waits once, with the bound
`POLL_WAIT`, and then returns Error with `func_ret = 0` exactly when the wait returned 0
(timeout), returned `-ERESTARTSYS` (interruption) or streaming is off; in every other
case it returns Processed with `func_ret = POLLIN`. -/
theorem poll_outcome (hash_min : Nat → Fin HASH_SIZE) (env : Env) (reg : Registry)
    (req_info : ipu4_virtio_req_info) (sn : stream_node) (rest : List stream_node)
    (d : ici_stream_device) (hinit : reg.hash_initialised = true)
    (hentry : reg.STREAM_NODE_HASH (hash_min (req_info.request.op 0)) = sn :: rest)
    (hdev : sn.f.private_data = some d) :
    (env.putbuf_list_empty sn.f = false →
      ∃ o, process_poll hash_min env reg req_info = some o ∧
        o.status = IPU4_REQ_PROCESSED ∧ o.req.func_ret = 1 ∧ o.req.func_ret ≠ 0 ∧
        o.calls = []) ∧
    (env.putbuf_list_empty sn.f = true →
      ∃ o, process_poll hash_min env reg req_info = some o ∧
        o.calls = [Call.wait_event_interruptible_timeout sn.f POLL_WAIT] ∧
        ((env.wait_result sn.f = 0 ∨ env.wait_result sn.f = -env.ERESTARTSYS ∨
            env.streaming sn.f = false) →
          o.status = IPU4_REQ_ERROR ∧ o.req.func_ret = 0) ∧
        (¬ (env.wait_result sn.f = 0 ∨ env.wait_result sn.f = -env.ERESTARTSYS ∨
            env.streaming sn.f = false) →
          o.status = IPU4_REQ_PROCESSED ∧ o.req.func_ret = env.POLLIN) ∧
        (o.status = IPU4_REQ_ERROR ↔
          (env.wait_result sn.f = 0 ∨ env.wait_result sn.f = -env.ERESTARTSYS ∨
            env.streaming sn.f = false))) := by
  constructor
  · intro hq
    refine ⟨{ status := IPU4_REQ_PROCESSED, req := { req_info.request with func_ret := 1 },
              reg := reg, calls := [] }, ?_, rfl, rfl, by simp, rfl⟩
    simp [process_poll, hinit, hash_for_each_possible, hentry, hdev, hq]
  · intro hq
    by_cases hc : env.wait_result sn.f = -env.ERESTARTSYS ∨ env.wait_result sn.f = 0 ∨
        env.streaming sn.f = false
    · have hc2 : env.wait_result sn.f = 0 ∨ env.wait_result sn.f = -env.ERESTARTSYS ∨
          env.streaming sn.f = false := by tauto
      refine ⟨{ status := IPU4_REQ_ERROR, req := { req_info.request with func_ret := 0 },
                reg := reg, calls := [Call.wait_event_interruptible_timeout sn.f POLL_WAIT] },
        ?_, rfl, fun _ => ⟨rfl, rfl⟩, fun h => absurd hc2 h, fun _ => hc2, fun _ => rfl⟩
      simp only [process_poll, hinit, hash_for_each_possible, hentry, hdev, hq]
      simp [hc]
    · have hc2 : ¬ (env.wait_result sn.f = 0 ∨ env.wait_result sn.f = -env.ERESTARTSYS ∨
          env.streaming sn.f = false) := by tauto
      refine ⟨{ status := IPU4_REQ_PROCESSED,
                req := { req_info.request with func_ret := env.POLLIN },
                reg := reg, calls := [Call.wait_event_interruptible_timeout sn.f POLL_WAIT] },
        ?_, rfl, fun h => absurd h hc2, fun _ => ⟨rfl, rfl⟩, ?_, fun h => absurd h hc2⟩
      · simp only [process_poll, hinit, hash_for_each_possible, hentry, hdev, hq]
        simp [hc]
      · intro h
        have h2 : IPU4_REQ_PROCESSED = IPU4_REQ_ERROR := h
        exact absurd h2 (by decide)

/-- Witness of C8: stream 5 is bound; the queue is not empty (first part), and the
queue is empty and the wait times out (second part). -/
theorem poll_outcome_witness :
    (∃ o, process_poll hash_32 (env_ok 0) (reg_one hash_32 5 1) ⟨req_of 5 0, 1⟩ = some o ∧
        o.status = IPU4_REQ_PROCESSED ∧ o.req.func_ret = 1 ∧ o.req.func_ret ≠ 0 ∧
        o.calls = []) ∧
    (∃ o, process_poll hash_32 (env_wait 0 true) (reg_one hash_32 5 1) ⟨req_of 5 0, 1⟩ = some o ∧
        o.status = IPU4_REQ_ERROR ∧ o.req.func_ret = 0) :=
  ⟨(poll_outcome hash_32 (env_ok 0) (reg_one hash_32 5 1) ⟨req_of 5 0, 1⟩
      { client_id := 1, f := { addr := 7, private_data := some { virt_dev_id := 5 } } } []
      { virt_dev_id := 5 } rfl (by decide) rfl).1 rfl,
   let ⟨o, ho, _, herr, _⟩ :=
     (poll_outcome hash_32 (env_wait 0 true) (reg_one hash_32 5 1) ⟨req_of 5 0, 1⟩
      { client_id := 1, f := { addr := 7, private_data := some { virt_dev_id := 5 } } } []
      { virt_dev_id := 5 } rfl (by decide) rfl).2 rfl
   ⟨o, ho, herr (Or.inl rfl)⟩⟩

/-- C9. After `cleanup_stream` every bucket is empty, whatever the registry held; the
calls it issued are one `filp_close` per node that was linked, on that node's file, and
nothing else, so each file is closed as many times as nodes were bound to it: exactly
once when no two nodes share a file. On an empty registry it issues no call and
returns the registry as it was. -/
theorem cleanup_stream_reclaims_all (reg : Registry) :
    (∀ b, (cleanup_stream reg).1.STREAM_NODE_HASH b = []) ∧
    (cleanup_stream reg).1.nodes = [] ∧
    (cleanup_stream reg).1.hash_initialised = reg.hash_initialised ∧
    (cleanup_stream reg).2 = reg.nodes.map (fun sn => Call.filp_close sn.f) ∧
    (∀ f, (closed (cleanup_stream reg).2).count f = (reg.nodes.map (fun sn => sn.f)).count f) ∧
    (∀ b sn, sn ∈ reg.STREAM_NODE_HASH b → sn.f ∈ closed (cleanup_stream reg).2) ∧
    ((reg.nodes.map (fun sn => sn.f)).Nodup →
      ∀ b sn, sn ∈ reg.STREAM_NODE_HASH b → (closed (cleanup_stream reg).2).count sn.f = 1) ∧
    ((∀ b, reg.STREAM_NODE_HASH b = []) → cleanup_stream reg = (reg, [])) := by
  have hclosed : closed (cleanup_stream reg).2 = reg.nodes.map (fun sn => sn.f) := by
    rw [cleanup_stream_eq]; exact closed_map_filp_close _
  have hmem : ∀ b sn, sn ∈ reg.STREAM_NODE_HASH b → sn.f ∈ reg.nodes.map (fun sn => sn.f) :=
    fun b sn h => List.mem_map.mpr ⟨sn, (mem_nodes_iff reg sn).mpr ⟨b, h⟩, rfl⟩
  refine ⟨?_, ?_, ?_, ?_, ?_, ?_, ?_, ?_⟩
  · intro b; rw [cleanup_stream_eq]
  · apply nodes_eq_nil_of_empty; intro b; rw [cleanup_stream_eq]
  · rw [cleanup_stream_eq]
  · rw [cleanup_stream_eq]
  · intro f; rw [hclosed]
  · intro b sn h; rw [hclosed]; exact hmem b sn h
  · intro hnd b sn h
    rw [hclosed]
    exact List.count_eq_one_of_mem hnd (hmem b sn h)
  · intro h
    have he : hash_empty reg.STREAM_NODE_HASH = true := (hash_empty_iff _).mpr h
    simp [cleanup_stream, he]

/-- Witness of C9: streams 1 and 2 are bound for guest 3 on files 7 and 8; the recovery
closes each of the two files once and leaves no node. -/
theorem cleanup_stream_reclaims_all_witness :
    (cleanup_stream (reg_two hash_32 1 2 3)).1.nodes = [] ∧
    (closed (cleanup_stream (reg_two hash_32 1 2 3)).2).count
      { addr := 7, private_data := some { virt_dev_id := 1 } } = 1 ∧
    (closed (cleanup_stream (reg_two hash_32 1 2 3)).2).count
      { addr := 8, private_data := some { virt_dev_id := 2 } } = 1 ∧
    (closed (cleanup_stream (reg_two hash_32 1 2 3)).2).length = 2 ∧
    cleanup_stream Registry.boot = (Registry.boot, []) :=
  ⟨(cleanup_stream_reclaims_all (reg_two hash_32 1 2 3)).2.1,
   (cleanup_stream_reclaims_all (reg_two hash_32 1 2 3)).2.2.2.2.2.2.1 (by decide) (hash_32 1)
     { client_id := 3, f := { addr := 7, private_data := some { virt_dev_id := 1 } } }
     (by decide),
   (cleanup_stream_reclaims_all (reg_two hash_32 1 2 3)).2.2.2.2.2.2.1 (by decide) (hash_32 2)
     { client_id := 3, f := { addr := 8, private_data := some { virt_dev_id := 2 } } }
     (by decide),
   by decide,
   (cleanup_stream_reclaims_all Registry.boot).2.2.2.2.2.2.2 (fun _ => rfl)⟩

/-- C10, failing input. For `op[0] = 10000000` the device name has 25 characters, so
with its terminating NUL it needs 26 bytes, one more than `node_name` holds; for
`op[0] = 0x80000000` the name is `/dev/intel_stream-2147483648` and needs 29 bytes. -/
theorem node_name_overflows :
    node_name 10000000 = "/dev/intel_stream10000000" ∧
    (node_name 10000000).length + 1 = 26 ∧
    NODE_NAME_SIZE < (node_name 10000000).length + 1 ∧
    node_name 0x80000000 = "/dev/intel_stream-2147483648" ∧
    (node_name 0x80000000).length + 1 = 29 ∧
    (process_device_open hash_32 (env_ok 0) Registry.boot ⟨req_of 10000000 0, 1⟩).isNone =
      true := by
  refine ⟨by decide, by decide, by decide, by decide, by decide, by decide⟩

end Ipu4Stream
